import Mathlib

/-!
Verification of the restaurant-backend-api repository: a shallow embedding of
the cart, order, and review route handlers (src/routes/orders.js — which holds
the order, cart and restaurant routers — and src/routes/reviews.js), with the
data model taken from src/models.  Database documents become Lean structures;
each Express handler becomes a pure function from the request data and the
relevant store state to a result (HTTP status plus payload) and the post-state.
Mongo ObjectIds are modelled as Nat; JS numbers carrying money or ratings as
Rat; JS Math.round as floor (x + 1/2).
-/

namespace RestaurantApi

/-- Result of a route handler: an ok payload, or an HTTP error status with the
JSON message the handler sends. -/
inductive HResult (α : Type) where
  | ok : α → HResult α
  | err : Nat → String → HResult α
deriving Repr, DecidableEq

/-- HTTP status of a handler result (200 on success). -/
def statusOf {α : Type} : HResult α → Nat
  | .ok _ => 200
  | .err s _ => s

/-- JS Math.round: nearest integer, half away from zero rounded up. -/
def jsRound (q : Rat) : Int := ⌊q + 1 / 2⌋

/-- One cart line item, per the cart documents used by src/routes/orders.js:
a menu-item reference, a quantity and the price snapshot taken at add-time. -/
structure CartItem where
  menuItem : Nat
  quantity : Int
  price : Rat
deriving Repr, DecidableEq

/-- A customer's cart document: owner, restaurant reference, line items. -/
structure Cart where
  user : Nat
  restaurant : Option Nat
  items : List CartItem
deriving Repr, DecidableEq

/-- Modelled from the spec: src/models/Cart.js is not among the sources; the
spec states the cart total amount is the derived sum of line price × quantity
over the cart's items (the order route reads cart.totalAmount). -/
def Cart.totalAmount (c : Cart) : Rat :=
  (c.items.map (fun it => it.price * (it.quantity : Rat))).sum

/-- Modelled from the spec: src/models/Cart.js is not among the sources; the
spec requires quantity ≥ 1 on every cart line item, which a Mongoose schema
enforces when the document is saved (save fails otherwise). -/
def cartSaveOk (c : Cart) : Bool :=
  c.items.all (fun it => 1 ≤ it.quantity)

/-- Persisting a cart: on schema success the saved cart is the response and the
new stored state; on schema failure the handler's catch sends 500 and the
stored state keeps its previous value. -/
def saveCart (c : Cart) (old : Option Cart) : HResult Cart × Option Cart :=
  if cartSaveOk c then (.ok c, some c) else (.err 500 "Cart validation failed", old)

/-- A menu item as read by the cart handler (src/models/MenuItem.js): owning
restaurant, name, price, availability flag. -/
structure MenuItem where
  restaurant : Nat
  name : String
  price : Rat
  isAvailable : Bool
deriving Repr, DecidableEq

/-- Merge step of POST /api/cart: the handler finds the first line for the
given menu item and adds the quantity to it, leaving its price untouched. -/
def bumpFirst (menuItemId : Nat) (quantity : Int) : List CartItem → List CartItem
  | [] => []
  | it :: rest =>
    if it.menuItem = menuItemId then
      { it with quantity := it.quantity + quantity } :: rest
    else
      it :: bumpFirst menuItemId quantity rest

/-- Body of POST /api/cart once the restaurant check has passed: merge the
quantity into an existing line for that menu item, or append a new line with a
price snapshot of the menu item's current price. -/
def mergeOrAppend (c : Cart) (menuItemId : Nat) (quantity : Int) (price : Rat) : Cart :=
  if c.items.any (fun it => it.menuItem == menuItemId) then
    { c with items := bumpFirst menuItemId quantity c.items }
  else
    { c with items := c.items ++ [{ menuItem := menuItemId, quantity := quantity, price := price }] }

/-- POST /api/cart (add item to cart), src/routes/orders.js cart router.
Returns the handler result and the customer's stored cart afterwards. -/
def addToCart (uid menuItemId : Nat) (quantity : Int)
    (menu : Nat → Option MenuItem) (cart? : Option Cart) :
    HResult Cart × Option Cart :=
  match menu menuItemId with
  | none => (.err 400 "Menu item not available", cart?)
  | some m =>
    if m.isAvailable = false then (.err 400 "Menu item not available", cart?)
    else
      match cart? with
      | none =>
        saveCart { user := uid, restaurant := some m.restaurant,
                   items := [{ menuItem := menuItemId, quantity := quantity, price := m.price }] }
          none
      | some c =>
        match c.restaurant with
        | some r =>
          if r ≠ m.restaurant then
            (.err 400 "You can only add items from one restaurant at a time. Clear cart to add from different restaurant.",
             some c)
          else
            saveCart (mergeOrAppend c menuItemId quantity m.price) (some c)
        | none =>
          saveCart { mergeOrAppend c menuItemId quantity m.price with restaurant := some m.restaurant }
            (some c)

/-- Update step of PUT /api/cart/:itemId: set the quantity of the first line
for the given menu item. -/
def setFirstQuantity (itemId : Nat) (quantity : Int) : List CartItem → List CartItem
  | [] => []
  | it :: rest =>
    if it.menuItem = itemId then { it with quantity := quantity } :: rest
    else it :: setFirstQuantity itemId quantity rest

/-- PUT /api/cart/:itemId (update cart item quantity), src/routes/orders.js
cart router. -/
def updateCartItem (uid itemId : Nat) (quantity : Int) (cart? : Option Cart) :
    HResult Cart × Option Cart :=
  if quantity ≤ 0 then (.err 400 "Quantity must be greater than 0", cart?)
  else
    match cart? with
    | none => (.err 404 "Cart not found", none)
    | some c =>
      if c.items.any (fun it => it.menuItem == itemId) then
        saveCart { c with items := setFirstQuantity itemId quantity c.items } (some c)
      else
        (.err 404 "Item not found in cart", some c)

/-- DELETE /api/cart/:itemId (remove item from cart), src/routes/orders.js
cart router.  The route parameter is a string; the handler keeps the lines
whose menu-item id does not stringify to it, and clears the restaurant
reference when no lines remain. -/
def removeCartItem (uid : Nat) (itemIdParam : String) (cart? : Option Cart) :
    HResult Cart × Option Cart :=
  match cart? with
  | none => (.err 404 "Cart not found", none)
  | some c =>
    let items2 := c.items.filter (fun it => toString it.menuItem != itemIdParam)
    let rest2 := if items2.isEmpty then none else c.restaurant
    saveCart { c with items := items2, restaurant := rest2 } (some c)

/-- DELETE /api/cart/clear handler body: deletes the cart document outright. -/
def clearCart (uid : Nat) (cart? : Option Cart) : HResult Unit × Option Cart :=
  (.ok (), none)

/-- An Express path parameter segment such as :itemId matches any non-empty
path segment. -/
def matchesParamSegment (seg : String) : Bool :=
  seg.isEmpty = false

/-- Express dispatch for DELETE /api/cart/<seg>: routes are tried in
registration order, and src/routes/orders.js registers the :itemId route
before the literal clear route, so the :itemId pattern is tried first.
Returns the HTTP status and the customer's stored cart afterwards. -/
def cartDeleteDispatch (uid : Nat) (seg : String) (cart? : Option Cart) :
    Nat × Option Cart :=
  if matchesParamSegment seg then
    let r := removeCartItem uid seg cart?
    (statusOf r.1, r.2)
  else if seg = "clear" then
    let r := clearCart uid cart?
    (statusOf r.1, r.2)
  else
    (404, cart?)

/-- One order line item: the snapshot POST /api/orders copies out of the cart
(menu-item id, populated menu-item name, quantity, cart price snapshot). -/
structure OrderItem where
  menuItem : Nat
  name : String
  quantity : Int
  price : Rat
deriving Repr, DecidableEq

/-- An order document as handled by src/routes/orders.js.  The fields the
route handlers read or write; timestamps are integer epoch milliseconds. -/
structure Order where
  customer : Nat
  restaurant : Nat
  deliveryAgent : Option Nat
  items : List OrderItem
  deliveryAddress : String
  totalAmount : Rat
  deliveryFee : Rat
  tax : Rat
  finalAmount : Rat
  paymentMethod : String
  notes : String
  status : String
  paymentStatus : String
  estimatedDeliveryTime : Int
  actualDeliveryTime : Option Int
deriving Repr, DecidableEq

/-- A restaurant document as read by the order handlers: only the owner
reference is consulted (src/models — Restaurant schema, owner field). -/
structure Restaurant where
  owner : Nat
deriving Repr, DecidableEq

/-- A review document, src/models/Review.js. -/
structure Review where
  customer : Nat
  restaurant : Nat
  order : Nat
  restaurantRating : Rat
  deliveryRating : Option Rat
  isVisible : Bool
deriving Repr, DecidableEq

/-- The rating aggregate stored on a restaurant record. -/
structure Rating where
  average : Rat
  count : Nat
deriving Repr, DecidableEq

/-- The populate step of POST /api/orders: each cart line's menu item is
fetched for its name; a line whose menu item no longer exists makes the
handler throw (caught as 500). -/
def populateItems (menu : Nat → Option MenuItem) : List CartItem → Option (List OrderItem)
  | [] => some []
  | it :: rest =>
    match menu it.menuItem, populateItems menu rest with
    | some m, some tl =>
      some ({ menuItem := it.menuItem, name := m.name, quantity := it.quantity,
              price := it.price } :: tl)
    | _, _ => none

/-- POST /api/orders (place order from cart), src/routes/orders.js.  Reads the
caller's cart; 400 if absent or empty; computes deliveryFee = 50,
tax = round(totalAmount * 0.05), finalAmount = totalAmount + fee + tax;
snapshots the cart lines; sets the estimated delivery time 45 minutes
(in milliseconds) past now; saves the order and deletes the cart.  The order's
initial status and payment status come from the Order schema defaults
(modelled from the spec: src/models/Order.js is not among the sources; the
spec's state machine starts at placed, and payment is marked paid only on
delivery).  Returns the handler result and the customer's cart afterwards. -/
def placeOrder (uid : Nat) (deliveryAddress paymentMethod notes : String)
    (menu : Nat → Option MenuItem) (now : Int) (cart? : Option Cart) :
    HResult Order × Option Cart :=
  match cart? with
  | none => (.err 400 "Cart is empty", none)
  | some cart =>
    if cart.items.isEmpty then (.err 400 "Cart is empty", some cart)
    else
      let deliveryFee : Rat := 50
      let tax : Rat := (jsRound (cart.totalAmount * (5 / 100)) : Rat)
      let finalAmount : Rat := cart.totalAmount + deliveryFee + tax
      match populateItems menu cart.items, cart.restaurant with
      | some oitems, some r =>
        (.ok { customer := uid, restaurant := r, deliveryAgent := none,
               items := oitems, deliveryAddress := deliveryAddress,
               totalAmount := cart.totalAmount, deliveryFee := deliveryFee,
               tax := tax, finalAmount := finalAmount,
               paymentMethod := paymentMethod, notes := notes,
               status := "placed", paymentStatus := "pending",
               estimatedDeliveryTime := now + 45 * 60 * 1000,
               actualDeliveryTime := none },
         none)
      | _, _ => (.err 500 "Internal error", some cart)

/-- Status values a restaurant owner may set, src/routes/orders.js. -/
def restaurantStatuses : List String := ["accepted", "preparing", "ready"]

/-- Status values a delivery agent may set, src/routes/orders.js. -/
def agentStatuses : List String := ["picked_up", "delivered"]

/-- The write step of PUT /api/orders/:id/status: sets the status, and on
delivered also stamps the actual delivery time and marks the payment paid. -/
def applyStatus (o : Order) (status : String) (now : Int) : Order :=
  if status = "delivered" then
    { o with status := status, actualDeliveryTime := some now, paymentStatus := "paid" }
  else
    { o with status := status }

/-- PUT /api/orders/:id/status (update order status), src/routes/orders.js.
findRestaurant looks a restaurant document up by id (a missing document makes
the handler throw on restaurant.owner, caught as 500). -/
def updateOrderStatus (role : String) (uid : Nat)
    (findRestaurant : Nat → Option Restaurant) (status : String) (now : Int)
    (order? : Option Order) : HResult Order :=
  match order? with
  | none => .err 404 "Order not found"
  | some o =>
    if role = "restaurant_owner" then
      if status ∈ restaurantStatuses then
        match findRestaurant o.restaurant with
        | none => .err 500 "Internal error"
        | some rest =>
          if rest.owner ≠ uid then .err 403 "Access denied"
          else .ok (applyStatus o status now)
      else .err 400 "Invalid status for restaurant owner"
    else if role = "delivery_agent" then
      if status ∈ agentStatuses then
        if o.deliveryAgent ≠ some uid then .err 403 "Access denied"
        else .ok (applyStatus o status now)
      else .err 400 "Invalid status for delivery agent"
    else .err 403 "Access denied"

/-- GET /api/orders/:id (get order details), src/routes/orders.js.  For a
restaurant owner only ownership of the order's restaurant is checked; every
other role passes exactly when the caller is the order's customer, its
assigned delivery agent, or an admin. -/
def getOrderById (uid : Nat) (role : String)
    (findRestaurant : Nat → Option Restaurant) (order? : Option Order) : HResult Order :=
  match order? with
  | none => .err 404 "Order not found"
  | some o =>
    if role = "restaurant_owner" then
      match findRestaurant o.restaurant with
      | none => .err 500 "Internal error"
      | some rest =>
        if rest.owner ≠ uid then .err 403 "Access denied" else .ok o
    else if o.customer = uid ∨ o.deliveryAgent = some uid ∨ role = "admin" then .ok o
    else .err 403 "Access denied"

/-- POST /api/reviews (create review), src/routes/reviews.js.  Checks order
existence, ownership, delivered status, and absence of a prior review for the
(customer, order) pair; on success appends the review, recomputes the
restaurant's rating over all reviews of that restaurant, and returns the
aggregate written to the restaurant record.  Returns the handler result, the
review store afterwards, and the rating written (none when nothing is
written). -/
def createReview (uid orderId : Nat) (restaurantRating : Rat)
    (deliveryRating : Option Rat) (findOrder : Nat → Option Order)
    (reviews : List Review) : HResult Review × List Review × Option Rating :=
  match findOrder orderId with
  | none => (.err 404 "Order not found", reviews, none)
  | some o =>
    if o.customer ≠ uid then (.err 403 "Access denied", reviews, none)
    else if o.status ≠ "delivered" then
      (.err 400 "Can only review delivered orders", reviews, none)
    else if reviews.any (fun r => r.customer == uid && r.order == orderId) then
      (.err 400 "Review already exists for this order", reviews, none)
    else
      let rv : Review := { customer := uid, restaurant := o.restaurant, order := orderId,
                           restaurantRating := restaurantRating,
                           deliveryRating := deliveryRating, isVisible := true }
      let reviews2 := reviews ++ [rv]
      let rs := reviews2.filter (fun r => r.restaurant == o.restaurant)
      let avg := rs.foldl (fun s r => s + r.restaurantRating) 0 / (rs.length : Rat)
      (.ok rv, reviews2,
       some { average := (jsRound (avg * 10) : Rat) / 10, count := rs.length })

/-- All reviews in the store for a given restaurant, visible or not. -/
def reviewsOf (rest : Nat) (l : List Review) : List Review :=
  l.filter (fun r => r.restaurant == rest)

/-- The arithmetic mean of the restaurant ratings over all reviews of a
restaurant, as the spec describes the recomputation. -/
def specMeanRating (rest : Nat) (l : List Review) : Rat :=
  ((reviewsOf rest l).map (fun r => r.restaurantRating)).sum / ((reviewsOf rest l).length : Rat)

/-- The uniqueness invariant of src/models/Review.js: at most one review per
(customer, order) pair. -/
def pairUnique (l : List Review) : Prop :=
  l.Pairwise (fun a b => ¬(a.customer = b.customer ∧ a.order = b.order))

/-- Every line item of a cart has quantity at least 1. -/
def cartValid (c : Cart) : Prop :=
  ∀ it ∈ c.items, 1 ≤ it.quantity

/-- A stored cart state is valid when the cart, if present, is valid. -/
def storedValid : Option Cart → Prop
  | none => True
  | some c => cartValid c

theorem cartSaveOk_iff (c : Cart) : cartSaveOk c = true ↔ cartValid c := by
  simp [cartSaveOk, cartValid, List.all_eq_true]

theorem saveCart_snd_valid (c : Cart) (old : Option Cart) (h : storedValid old) :
    storedValid (saveCart c old).2 := by
  unfold saveCart
  by_cases hc : cartSaveOk c = true
  · simp [hc, storedValid, (cartSaveOk_iff c).mp hc]
  · simp [hc, h]

theorem saveCart_ok (c : Cart) (old : Option Cart) (h : cartValid c) :
    saveCart c old = (.ok c, some c) := by
  unfold saveCart
  simp [(cartSaveOk_iff c).mpr h]

theorem bumpFirst_pairs (menuItemId : Nat) (quantity : Int) (l : List CartItem) :
    (bumpFirst menuItemId quantity l).map (fun it => (it.menuItem, it.price))
      = l.map (fun it => (it.menuItem, it.price)) := by
  induction l with
  | nil => rfl
  | cons it rest ih =>
    by_cases h : it.menuItem = menuItemId
    · simp [bumpFirst, h]
    · simp [bumpFirst, h, ih]

theorem bumpFirst_valid (menuItemId : Nat) (quantity : Int) (l : List CartItem)
    (hl : ∀ it ∈ l, 1 ≤ it.quantity) (hq : 1 ≤ quantity) :
    ∀ it ∈ bumpFirst menuItemId quantity l, 1 ≤ it.quantity := by
  induction l with
  | nil => simp [bumpFirst]
  | cons it rest ih =>
    by_cases h : it.menuItem = menuItemId
    · simp only [bumpFirst, if_pos h]
      intro x hx
      rcases List.mem_cons.mp hx with hx | hx
      · subst hx
        have := hl it (List.mem_cons_self it rest)
        simp only
        omega
      · exact hl x (List.mem_cons_of_mem it hx)
    · simp only [bumpFirst, if_neg h]
      intro x hx
      rcases List.mem_cons.mp hx with hx | hx
      · subst hx; exact hl x (List.mem_cons_self x rest)
      · exact ih (fun y hy => hl y (List.mem_cons_of_mem it hy)) x hx

theorem mergeOrAppend_valid (c : Cart) (menuItemId : Nat) (quantity : Int) (price : Rat)
    (hc : cartValid c) (hq : 1 ≤ quantity) :
    cartValid (mergeOrAppend c menuItemId quantity price) := by
  unfold mergeOrAppend cartValid
  by_cases h : c.items.any (fun it => it.menuItem == menuItemId) = true
  · rw [if_pos h]
    exact bumpFirst_valid menuItemId quantity c.items hc hq
  · rw [if_neg h]
    intro it hit
    rcases List.mem_append.mp hit with hit | hit
    · exact hc it hit
    · simp at hit
      subst hit
      exact hq

theorem setFirstQuantity_valid (itemId : Nat) (quantity : Int) (l : List CartItem)
    (hl : ∀ it ∈ l, 1 ≤ it.quantity) (hq : 1 ≤ quantity) :
    ∀ it ∈ setFirstQuantity itemId quantity l, 1 ≤ it.quantity := by
  induction l with
  | nil => simp [setFirstQuantity]
  | cons it rest ih =>
    by_cases h : it.menuItem = itemId
    · simp only [setFirstQuantity, if_pos h]
      intro x hx
      rcases List.mem_cons.mp hx with hx | hx
      · subst hx; exact hq
      · exact hl x (List.mem_cons_of_mem it hx)
    · simp only [setFirstQuantity, if_neg h]
      intro x hx
      rcases List.mem_cons.mp hx with hx | hx
      · subst hx; exact hl x (List.mem_cons_self x rest)
      · exact ih (fun y hy => hl y (List.mem_cons_of_mem it hy)) x hx

/-- C5: adding an item to the cart (POST /cart) fails with 400 when the menu
item is absent or unavailable; fails with 400 when the cart's restaurant
reference differs from the item's restaurant; otherwise creates the cart when
none exists, merges the quantity into an existing line for the same menu item
(leaving every line's id and price — in particular the price snapshot taken at
the earlier add — unchanged, whatever the menu item's current price is), or
appends a new line whose price is a snapshot of the menu item's price at
add-time, existing lines untouched. -/
theorem addToCart_contract (uid menuItemId : Nat) (quantity : Int)
    (menu : Nat → Option MenuItem) (cart? : Option Cart) :
    ((menu menuItemId = none ∨ ∃ m, menu menuItemId = some m ∧ m.isAvailable = false) →
      addToCart uid menuItemId quantity menu cart? = (.err 400 "Menu item not available", cart?)) ∧
    (∀ m c r, menu menuItemId = some m → m.isAvailable = true → cart? = some c →
      c.restaurant = some r → r ≠ m.restaurant →
      addToCart uid menuItemId quantity menu cart? =
        (.err 400 "You can only add items from one restaurant at a time. Clear cart to add from different restaurant.",
         some c)) ∧
    (∀ m, menu menuItemId = some m → m.isAvailable = true → cart? = none → 1 ≤ quantity →
      addToCart uid menuItemId quantity menu cart? =
        (.ok { user := uid, restaurant := some m.restaurant,
               items := [{ menuItem := menuItemId, quantity := quantity, price := m.price }] },
         some { user := uid, restaurant := some m.restaurant,
                items := [{ menuItem := menuItemId, quantity := quantity, price := m.price }] })) ∧
    (∀ m c, menu menuItemId = some m → m.isAvailable = true → cart? = some c →
      c.restaurant = some m.restaurant → cartValid c → 1 ≤ quantity →
      addToCart uid menuItemId quantity menu cart? =
        (.ok (mergeOrAppend c menuItemId quantity m.price),
         some (mergeOrAppend c menuItemId quantity m.price)) ∧
      ((∃ it ∈ c.items, it.menuItem = menuItemId) →
        (mergeOrAppend c menuItemId quantity m.price).items.map (fun it => (it.menuItem, it.price))
          = c.items.map (fun it => (it.menuItem, it.price))) ∧
      ((¬ ∃ it ∈ c.items, it.menuItem = menuItemId) →
        (mergeOrAppend c menuItemId quantity m.price).items
          = c.items ++ [{ menuItem := menuItemId, quantity := quantity, price := m.price }])) := by
  refine ⟨?_, ?_, ?_, ?_⟩
  · rintro (h | ⟨m, hm, hav⟩)
    · simp [addToCart, h]
    · simp [addToCart, hm, hav]
  · intro m c r hm hav hc hr hne
    subst hc
    simp [addToCart, hm, hav, hr, hne]
  · intro m hm hav hc hq
    subst hc
    have hv : cartValid ⟨uid, some m.restaurant, [⟨menuItemId, quantity, m.price⟩]⟩ := by
      intro it hit
      simp at hit
      subst hit
      exact hq
    simp [addToCart, hm, hav, saveCart_ok _ _ hv]
  · intro m c hm hav hc hr hv hq
    subst hc
    refine ⟨?_, ?_, ?_⟩
    · have hv2 := mergeOrAppend_valid c menuItemId quantity m.price hv hq
      simp [addToCart, hm, hav, hr, saveCart_ok _ _ hv2]
    · intro hex
      have hany : c.items.any (fun it => it.menuItem == menuItemId) = true := by
        simp only [List.any_eq_true, beq_iff_eq]
        exact hex
      simp [mergeOrAppend, hany, bumpFirst_pairs]
    · intro hex
      have hany : c.items.any (fun it => it.menuItem == menuItemId) = false := by
        simp only [List.any_eq_false, beq_iff_eq]
        push_neg at hex
        exact hex
      simp [mergeOrAppend, hany]

/-- Concrete cart used to exhibit the shadowed clear route. -/
def cartC6 : Cart :=
  { user := 1, restaurant := some 5, items := [{ menuItem := 7, quantity := 2, price := 100 }] }

/-- C6: DELETE /api/cart/clear does not delete the cart document.  The cart
router registers the :itemId route before the literal clear route, and an
Express path parameter matches any non-empty segment, so the request is
dispatched to the remove-item handler with itemId = "clear"; no line's
menu-item id stringifies to "clear", so the cart survives unchanged (status
200), whereas the clear handler itself — had it been reachable — would have
deleted the cart. -/
theorem clearCart_route_shadowed :
    cartDeleteDispatch 1 "clear" (some cartC6) = (200, some cartC6) ∧
    (clearCart 1 (some cartC6)).2 = none := by
  constructor
  · rfl
  · rfl

/-- C7: removing an item from the cart (DELETE /cart/:itemId) keeps exactly
the lines whose menu-item id differs from the parameter; when no lines remain
the restaurant reference is cleared to none; in every case the cart document
itself still exists afterwards (404 only when no cart exists at all). -/
theorem removeCartItem_contract (uid : Nat) (itemIdParam : String) (cart? : Option Cart) :
    (cart? = none → removeCartItem uid itemIdParam cart? = (.err 404 "Cart not found", none)) ∧
    (∀ c, cart? = some c → cartValid c →
      removeCartItem uid itemIdParam cart? =
        (.ok { c with
                items := c.items.filter (fun it => toString it.menuItem != itemIdParam),
                restaurant :=
                  if (c.items.filter (fun it => toString it.menuItem != itemIdParam)).isEmpty
                  then none else c.restaurant },
         some { c with
                items := c.items.filter (fun it => toString it.menuItem != itemIdParam),
                restaurant :=
                  if (c.items.filter (fun it => toString it.menuItem != itemIdParam)).isEmpty
                  then none else c.restaurant })) := by
  constructor
  · intro h
    simp [removeCartItem, h]
  · intro c hc hv
    subst hc
    have hv2 : cartValid { c with
        items := c.items.filter (fun it => toString it.menuItem != itemIdParam),
        restaurant :=
          if (c.items.filter (fun it => toString it.menuItem != itemIdParam)).isEmpty
          then none else c.restaurant } := by
      intro it hit
      exact hv it (List.mem_of_mem_filter hit)
    exact saveCart_ok _ (some c) hv2

/-- C9: the cart operations preserve the quantity ≥ 1 invariant on every line
of the stored cart (the schema rejects a save that would break it), the
update-quantity operation rejects any quantity below 1 with 400 and answers
404 when the cart or the line is missing, and the remove operation only ever
drops lines — every remaining line is one of the original lines, quantity
included. -/
theorem cart_quantity_invariant (uid mid : Nat) (itemIdParam : String) (q : Int)
    (menu : Nat → Option MenuItem) (cart? : Option Cart) (h : storedValid cart?) :
    storedValid (addToCart uid mid q menu cart?).2 ∧
    storedValid (updateCartItem uid mid q cart?).2 ∧
    storedValid (removeCartItem uid itemIdParam cart?).2 ∧
    (q < 1 → (updateCartItem uid mid q cart?).1 = .err 400 "Quantity must be greater than 0") ∧
    (1 ≤ q → cart? = none → (updateCartItem uid mid q cart?).1 = .err 404 "Cart not found") ∧
    (∀ c, 1 ≤ q → cart? = some c → (∀ it ∈ c.items, it.menuItem ≠ mid) →
      (updateCartItem uid mid q cart?).1 = .err 404 "Item not found in cart") ∧
    (∀ c c2, cart? = some c → (removeCartItem uid itemIdParam cart?).2 = some c2 →
      ∀ it ∈ c2.items, it ∈ c.items) := by
  refine ⟨?_, ?_, ?_, ?_, ?_, ?_, ?_⟩
  · unfold addToCart
    cases hm : menu mid with
    | none => exact h
    | some m =>
      dsimp only
      by_cases hav : m.isAvailable = false
      · rw [if_pos hav]
        exact h
      · rw [if_neg hav]
        cases cart? with
        | none => exact saveCart_snd_valid _ _ trivial
        | some c =>
          dsimp only
          cases hr : c.restaurant with
          | some r =>
            dsimp only
            by_cases hne : r ≠ m.restaurant
            · rw [if_pos hne]
              exact h
            · rw [if_neg hne]
              exact saveCart_snd_valid _ _ h
          | none => exact saveCart_snd_valid _ _ h
  · unfold updateCartItem
    by_cases hq : q ≤ 0
    · rw [if_pos hq]
      exact h
    · rw [if_neg hq]
      cases cart? with
      | none => trivial
      | some c =>
        dsimp only
        by_cases hany : c.items.any (fun it => it.menuItem == mid) = true
        · rw [if_pos hany]
          exact saveCart_snd_valid _ _ h
        · rw [if_neg hany]
          exact h
  · unfold removeCartItem
    cases cart? with
    | none => trivial
    | some c => exact saveCart_snd_valid _ _ h
  · intro hq
    have hq0 : q ≤ 0 := by omega
    simp [updateCartItem, hq0]
  · intro hq hc
    have hq0 : ¬q ≤ 0 := by omega
    simp [updateCartItem, hc, hq0]
  · intro c hq hc hno
    have hq0 : ¬q ≤ 0 := by omega
    have hany : c.items.any (fun it => it.menuItem == mid) = false := by
      simp only [List.any_eq_false, beq_iff_eq]
      exact hno
    simp [updateCartItem, hc, hq0, hany]
  · intro c c2 hc hpost it hit
    subst hc
    unfold removeCartItem at hpost
    simp only at hpost
    unfold saveCart at hpost
    by_cases hok : cartSaveOk { c with
        items := c.items.filter (fun it => toString it.menuItem != itemIdParam),
        restaurant :=
          if (c.items.filter (fun it => toString it.menuItem != itemIdParam)).isEmpty
          then none else c.restaurant } = true
    · rw [if_pos hok] at hpost
      simp only [Option.some.injEq] at hpost
      subst hpost
      exact List.mem_of_mem_filter hit
    · rw [if_neg hok] at hpost
      simp only [Option.some.injEq] at hpost
      subst hpost
      exact hit

/-- The relation between an order line and the cart line it was copied from:
id, quantity and price are copied, the name is the referenced menu item's. -/
def snapshotRel (menu : Nat → Option MenuItem) (oi : OrderItem) (ci : CartItem) : Prop :=
  oi.menuItem = ci.menuItem ∧ oi.quantity = ci.quantity ∧ oi.price = ci.price ∧
  ∃ m, menu ci.menuItem = some m ∧ oi.name = m.name

theorem populateItems_forall2 (menu : Nat → Option MenuItem) :
    ∀ (l : List CartItem) (l2 : List OrderItem), populateItems menu l = some l2 →
      List.Forall₂ (snapshotRel menu) l2 l := by
  intro l
  induction l with
  | nil =>
    intro l2 h
    simp only [populateItems, Option.some.injEq] at h
    subst h
    exact List.Forall₂.nil
  | cons it rest ih =>
    intro l2 h
    cases hm : menu it.menuItem with
    | none =>
      simp only [populateItems, hm] at h
      exact Option.noConfusion h
    | some m =>
      cases hr : populateItems menu rest with
      | none =>
        simp only [populateItems, hm, hr] at h
        exact Option.noConfusion h
      | some tl =>
        simp only [populateItems, hm, hr, Option.some.injEq] at h
        subst h
        exact List.Forall₂.cons ⟨rfl, rfl, rfl, m, hm, rfl⟩ (ih tl hr)

/-- C1: order placement (POST /orders) answers 400 and creates nothing when
the caller's cart is absent or empty; otherwise it produces an order with
deliveryFee = 50, tax = round(5% of the cart subtotal), finalAmount =
subtotal + fee + tax, an item snapshot copying each cart line's menu-item id,
quantity and price together with the menu item's name, an estimated delivery
time 45 minutes (in ms) after now, and deletes the customer's cart, so no
cart remains for that customer. -/
theorem placeOrder_contract (uid : Nat) (addr pm notes : String)
    (menu : Nat → Option MenuItem) (now : Int) (cart? : Option Cart) :
    ((cart? = none ∨ ∃ c, cart? = some c ∧ c.items = []) →
      (placeOrder uid addr pm notes menu now cart?).1 = .err 400 "Cart is empty" ∧
      (placeOrder uid addr pm notes menu now cart?).2 = cart?) ∧
    (∀ c r oitems, cart? = some c → c.items ≠ [] → c.restaurant = some r →
      populateItems menu c.items = some oitems →
      placeOrder uid addr pm notes menu now cart? =
        (.ok { customer := uid, restaurant := r, deliveryAgent := none,
               items := oitems, deliveryAddress := addr,
               totalAmount := c.totalAmount, deliveryFee := 50,
               tax := (jsRound (c.totalAmount * (5 / 100)) : Rat),
               finalAmount := c.totalAmount + 50 + (jsRound (c.totalAmount * (5 / 100)) : Rat),
               paymentMethod := pm, notes := notes,
               status := "placed", paymentStatus := "pending",
               estimatedDeliveryTime := now + 45 * 60 * 1000,
               actualDeliveryTime := none },
         none) ∧
      List.Forall₂ (snapshotRel menu) oitems c.items) := by
  constructor
  · rintro (h | ⟨c, hc, hitems⟩)
    · subst h
      exact ⟨rfl, rfl⟩
    · subst hc
      have he : c.items.isEmpty = true := by simp [hitems]
      constructor <;> simp [placeOrder, he]
  · intro c r oitems hc hne hr hpop
    subst hc
    have he : c.items.isEmpty = false := by simp [hne]
    refine ⟨?_, populateItems_forall2 menu c.items oitems hpop⟩
    simp [placeOrder, he, hpop, hr]

/-- C2: for PUT /orders/:id/status on an existing order, a restaurant owner
succeeds exactly on a status in {accepted, preparing, ready} (else 400) on an
order of a restaurant they own (else 403); a delivery agent succeeds exactly
on a status in {picked_up, delivered} (else 400) on an order they are
assigned to (else 403); every other role gets 403; and the answer's HTTP
status is the same whatever the order's current status is — no transition
ordering is enforced. -/
theorem updateOrderStatus_permissions (role : String) (uid : Nat)
    (fr : Nat → Option Restaurant) (status : String) (now : Int) (o : Order)
    (rest : Restaurant) (hrest : fr o.restaurant = some rest) :
    (role = "restaurant_owner" → status ∉ restaurantStatuses →
      updateOrderStatus role uid fr status now (some o) =
        .err 400 "Invalid status for restaurant owner") ∧
    (role = "restaurant_owner" → status ∈ restaurantStatuses → rest.owner ≠ uid →
      updateOrderStatus role uid fr status now (some o) = .err 403 "Access denied") ∧
    (role = "restaurant_owner" → status ∈ restaurantStatuses → rest.owner = uid →
      updateOrderStatus role uid fr status now (some o) = .ok (applyStatus o status now)) ∧
    (role = "delivery_agent" → status ∉ agentStatuses →
      updateOrderStatus role uid fr status now (some o) =
        .err 400 "Invalid status for delivery agent") ∧
    (role = "delivery_agent" → status ∈ agentStatuses → o.deliveryAgent ≠ some uid →
      updateOrderStatus role uid fr status now (some o) = .err 403 "Access denied") ∧
    (role = "delivery_agent" → status ∈ agentStatuses → o.deliveryAgent = some uid →
      updateOrderStatus role uid fr status now (some o) = .ok (applyStatus o status now)) ∧
    (role ≠ "restaurant_owner" → role ≠ "delivery_agent" →
      updateOrderStatus role uid fr status now (some o) = .err 403 "Access denied") ∧
    (∀ s2, statusOf (updateOrderStatus role uid fr status now (some o)) =
      statusOf (updateOrderStatus role uid fr status now (some { o with status := s2 }))) := by
  have hro : ("restaurant_owner" : String) ≠ "delivery_agent" := by decide
  refine ⟨?_, ?_, ?_, ?_, ?_, ?_, ?_, ?_⟩
  · intro h1 h2
    subst h1
    simp [updateOrderStatus, h2]
  · intro h1 h2 h3
    subst h1
    simp [updateOrderStatus, h2, hrest, h3]
  · intro h1 h2 h3
    subst h1
    simp [updateOrderStatus, h2, hrest, h3]
  · intro h1 h2
    subst h1
    simp [updateOrderStatus, h2]
  · intro h1 h2 h3
    subst h1
    simp [updateOrderStatus, h2, h3]
  · intro h1 h2 h3
    subst h1
    simp [updateOrderStatus, h2, h3]
  · intro h1 h2
    simp [updateOrderStatus, h1, h2]
  · intro s2
    unfold updateOrderStatus
    by_cases h1 : role = "restaurant_owner"
    · by_cases h2 : status ∈ restaurantStatuses
      · by_cases h3 : rest.owner = uid <;> simp [h1, h2, h3, hrest, statusOf]
      · simp [h1, h2, statusOf]
    · by_cases h4 : role = "delivery_agent"
      · by_cases h5 : status ∈ agentStatuses
        · by_cases h6 : o.deliveryAgent = some uid <;> simp [h1, h4, h5, h6, statusOf]
        · simp [h1, h4, h5, statusOf]
      · simp [h1, h4, statusOf]

theorem updateOrderStatus_ok_result (role : String) (uid : Nat)
    (fr : Nat → Option Restaurant) (status : String) (now : Int) (o o2 : Order)
    (h : updateOrderStatus role uid fr status now (some o) = .ok o2) :
    o2 = applyStatus o status now := by
  unfold updateOrderStatus at h
  dsimp only at h
  by_cases h1 : role = "restaurant_owner"
  · rw [if_pos h1] at h
    by_cases h2 : status ∈ restaurantStatuses
    · rw [if_pos h2] at h
      cases hfr : fr o.restaurant with
      | none => rw [hfr] at h; exact absurd h (by simp)
      | some rest =>
        rw [hfr] at h
        dsimp only at h
        by_cases h3 : rest.owner ≠ uid
        · rw [if_pos h3] at h; exact absurd h (by simp)
        · rw [if_neg h3] at h
          cases h
          rfl
    · rw [if_neg h2] at h; exact absurd h (by simp)
  · rw [if_neg h1] at h
    by_cases h4 : role = "delivery_agent"
    · rw [if_pos h4] at h
      by_cases h5 : status ∈ agentStatuses
      · rw [if_pos h5] at h
        by_cases h6 : o.deliveryAgent ≠ some uid
        · rw [if_pos h6] at h; exact absurd h (by simp)
        · rw [if_neg h6] at h
          cases h; rfl
      · rw [if_neg h5] at h; exact absurd h (by simp)
    · rw [if_neg h4] at h; exact absurd h (by simp)

/-- C8: whenever PUT /orders/:id/status succeeds with status delivered, the
updated order has actualDeliveryTime stamped with the current time and
paymentStatus paid; a successful transition to any other status changes only
the status field, leaving actualDeliveryTime, paymentStatus and every other
field as they were. -/
theorem delivered_frame (role : String) (uid : Nat) (fr : Nat → Option Restaurant)
    (status : String) (now : Int) (o o2 : Order)
    (h : updateOrderStatus role uid fr status now (some o) = .ok o2) :
    (status = "delivered" →
      o2 = { o with
             status := "delivered"
             actualDeliveryTime := some now
             paymentStatus := "paid" }) ∧
    (status ≠ "delivered" → o2 = { o with status := status }) := by
  have h2 := updateOrderStatus_ok_result role uid fr status now o o2 h
  subst h2
  constructor
  · intro hd
    subst hd
    simp [applyStatus]
  · intro hd
    simp [applyStatus, hd]

/-- C10: for GET /orders/:id on an existing order, a restaurant_owner caller
is granted access exactly when they own the order's restaurant — the
customer / assigned-agent / admin conditions are not consulted for that role —
while a caller of any other role is granted access exactly when they are the
order's customer, its assigned agent, or an admin; access failure is 403. -/
theorem getOrder_access (uid : Nat) (role : String) (fr : Nat → Option Restaurant)
    (o : Order) (rest : Restaurant) (hrest : fr o.restaurant = some rest) :
    (role = "restaurant_owner" →
      getOrderById uid role fr (some o) =
        (if rest.owner = uid then .ok o else .err 403 "Access denied")) ∧
    (role ≠ "restaurant_owner" →
      getOrderById uid role fr (some o) =
        (if o.customer = uid ∨ o.deliveryAgent = some uid ∨ role = "admin"
         then .ok o else .err 403 "Access denied")) := by
  constructor
  · intro h1
    subst h1
    by_cases h2 : rest.owner = uid <;> simp [getOrderById, hrest, h2]
  · intro h1
    by_cases h2 : o.customer = uid ∨ o.deliveryAgent = some uid ∨ role = "admin" <;>
      simp [getOrderById, h1, h2]

theorem foldl_ratings (l : List Review) (a : Rat) :
    l.foldl (fun s r => s + r.restaurantRating) a
      = a + (l.map (fun r => r.restaurantRating)).sum := by
  induction l generalizing a with
  | nil => simp
  | cons r t ih =>
    simp only [List.foldl_cons, List.map_cons, List.sum_cons, ih, add_assoc]

/-- C3: creating a review (POST /reviews) answers 404 when the order does not
exist, 403 when it is not the caller's, 400 when it is not delivered, and 400
when a review for the (customer, order) pair already exists; on every failure
the review store and the restaurant rating are untouched; on success exactly
the new review is appended, and the one-review-per-(customer, order)
uniqueness invariant of the review store is preserved. -/
theorem createReview_guards (uid orderId : Nat) (rr : Rat) (dr : Option Rat)
    (findOrder : Nat → Option Order) (reviews : List Review) :
    (findOrder orderId = none →
      createReview uid orderId rr dr findOrder reviews =
        (.err 404 "Order not found", reviews, none)) ∧
    (∀ o, findOrder orderId = some o → o.customer ≠ uid →
      createReview uid orderId rr dr findOrder reviews =
        (.err 403 "Access denied", reviews, none)) ∧
    (∀ o, findOrder orderId = some o → o.customer = uid → o.status ≠ "delivered" →
      createReview uid orderId rr dr findOrder reviews =
        (.err 400 "Can only review delivered orders", reviews, none)) ∧
    (∀ o, findOrder orderId = some o → o.customer = uid → o.status = "delivered" →
      (∃ r ∈ reviews, r.customer = uid ∧ r.order = orderId) →
      createReview uid orderId rr dr findOrder reviews =
        (.err 400 "Review already exists for this order", reviews, none)) ∧
    (∀ o, findOrder orderId = some o → o.customer = uid → o.status = "delivered" →
      (∀ r ∈ reviews, ¬(r.customer = uid ∧ r.order = orderId)) →
      (createReview uid orderId rr dr findOrder reviews).1 =
        .ok { customer := uid, restaurant := o.restaurant, order := orderId,
              restaurantRating := rr, deliveryRating := dr, isVisible := true } ∧
      (createReview uid orderId rr dr findOrder reviews).2.1 =
        reviews ++ [{ customer := uid, restaurant := o.restaurant, order := orderId,
                      restaurantRating := rr, deliveryRating := dr, isVisible := true }]) ∧
    (pairUnique reviews → ∀ res l2 rat,
      createReview uid orderId rr dr findOrder reviews = (res, l2, rat) → pairUnique l2) := by
  refine ⟨?_, ?_, ?_, ?_, ?_, ?_⟩
  · intro h
    simp [createReview, h]
  · intro o ho hc
    simp [createReview, ho, hc]
  · intro o ho hc hs
    simp [createReview, ho, hc, hs]
  · intro o ho hc hs hex
    have hany : reviews.any (fun r => r.customer == uid && r.order == orderId) = true := by
      simp only [List.any_eq_true, Bool.and_eq_true, beq_iff_eq]
      obtain ⟨r, hr, h1, h2⟩ := hex
      exact ⟨r, hr, h1, h2⟩
    simp [createReview, ho, hc, hs, hany]
  · intro o ho hc hs hno
    have hany : reviews.any (fun r => r.customer == uid && r.order == orderId) = false := by
      simp only [List.any_eq_false, Bool.and_eq_true, beq_iff_eq, not_and]
      intro r hr h1
      exact fun h2 => hno r hr ⟨h1, h2⟩
    constructor <;> simp [createReview, ho, hc, hs, hany]
  · intro hu res l2 rat h
    unfold createReview at h
    cases ho : findOrder orderId with
    | none =>
      rw [ho] at h
      cases h
      exact hu
    | some o =>
      rw [ho] at h
      dsimp only at h
      by_cases hc : o.customer ≠ uid
      · rw [if_pos hc] at h
        cases h
        exact hu
      · rw [if_neg hc] at h
        by_cases hs : o.status ≠ "delivered"
        · rw [if_pos hs] at h
          cases h
          exact hu
        · rw [if_neg hs] at h
          by_cases hany : reviews.any (fun r => r.customer == uid && r.order == orderId) = true
          · rw [if_pos hany] at h
            cases h
            exact hu
          · rw [if_neg hany] at h
            cases h
            unfold pairUnique at hu ⊢
            rw [List.pairwise_append]
            refine ⟨hu, List.pairwise_singleton _ _, ?_⟩
            intro a ha b hb
            simp only [List.mem_singleton] at hb
            subst hb
            have := List.any_eq_false.mp (Bool.not_eq_true _ ▸ hany) a ha
            simp only [Bool.and_eq_true, beq_iff_eq, not_and] at this
            rintro ⟨h1, h2⟩
            exact this h1 h2

/-- C4: after a successful review creation for an order of restaurant R, the
rating written to R's record has average = round(mean of restaurantRating
over all reviews of R in the post-state * 10) / 10 and count = the number of
reviews of R, the mean ranging over every review of R regardless of its
visibility flag. -/
theorem createReview_rating (uid orderId : Nat) (rr : Rat) (dr : Option Rat)
    (findOrder : Nat → Option Order) (reviews : List Review) (o : Order)
    (ho : findOrder orderId = some o) (rv : Review) (l2 : List Review) (rating : Rating)
    (h : createReview uid orderId rr dr findOrder reviews = (.ok rv, l2, some rating)) :
    rating.average = (jsRound (specMeanRating o.restaurant l2 * 10) : Rat) / 10 ∧
    rating.count = (reviewsOf o.restaurant l2).length := by
  unfold createReview at h
  rw [ho] at h
  dsimp only at h
  by_cases hc : o.customer ≠ uid
  · rw [if_pos hc] at h
    exact absurd h (by simp)
  · rw [if_neg hc] at h
    by_cases hs : o.status ≠ "delivered"
    · rw [if_pos hs] at h
      exact absurd h (by simp)
    · rw [if_neg hs] at h
      by_cases hany : reviews.any (fun r => r.customer == uid && r.order == orderId) = true
      · rw [if_pos hany] at h
        exact absurd h (by simp)
      · rw [if_neg hany] at h
        simp only [Prod.mk.injEq, HResult.ok.injEq, Option.some.injEq] at h
        obtain ⟨hrv, hl2, hrat⟩ := h
        subst hl2
        subst hrat
        constructor
        · simp only [specMeanRating, reviewsOf, foldl_ratings, zero_add]
        · simp only [reviewsOf]

/-- A concrete one-item menu used by the witnesses. -/
def menuW : Nat → Option MenuItem :=
  fun n => if n = 7 then some ⟨3, "Dosa", 100, true⟩ else none

/-- A concrete cart with one line (menu item 7, quantity 2, price 100). -/
def cartW : Cart := ⟨1, some 3, [⟨7, 2, 100⟩]⟩

/-- The order-item snapshot of cartW under menuW. -/
def oitemsW : List OrderItem := [⟨7, "Dosa", 2, 100⟩]

/-- A concrete order owned by customer 1 at restaurant 3, agent 2 assigned. -/
def orderW : Order :=
  { customer := 1, restaurant := 3, deliveryAgent := some 2, items := [],
    deliveryAddress := "", totalAmount := 0, deliveryFee := 0, tax := 0,
    finalAmount := 0, paymentMethod := "", notes := "", status := "placed",
    paymentStatus := "pending", estimatedDeliveryTime := 0,
    actualDeliveryTime := none }

/-- orderW once delivered. -/
def orderDeliveredW : Order := { orderW with status := "delivered" }

/-- A restaurant lookup answering owner 9 everywhere. -/
def frW : Nat → Option Restaurant := fun _ => some ⟨9⟩

/-- An order lookup holding only orderDeliveredW under id 10. -/
def findOrderW : Nat → Option Order :=
  fun n => if n = 10 then some orderDeliveredW else none

/-- The review created by the C4 witness run. -/
def rvW : Review := ⟨1, 3, 10, 5, none, true⟩

/-- The rating aggregate the C4 witness run writes. -/
def ratW : Rating := ⟨5, 1⟩

/-- Witness for C1 at cartW (subtotal 200): fee 50, tax 10, final 260, the
cart deleted afterwards. -/
theorem placeOrder_contract_witness :
    placeOrder 1 "a" "cod" "" menuW 0 (some cartW) =
      (.ok { customer := 1, restaurant := 3, deliveryAgent := none,
             items := oitemsW, deliveryAddress := "a",
             totalAmount := 200, deliveryFee := 50, tax := 10, finalAmount := 260,
             paymentMethod := "cod", notes := "", status := "placed",
             paymentStatus := "pending", estimatedDeliveryTime := 45 * 60 * 1000,
             actualDeliveryTime := none },
       none) := by
  have h := (placeOrder_contract 1 "a" "cod" "" menuW 0 (some cartW)).2
    cartW 3 oitemsW rfl (by decide) rfl (by decide)
  rw [h.1]
  norm_num [cartW, Cart.totalAmount, jsRound, Prod.ext_iff]

/-- Witness for C2: owner 9 of restaurant 3 moves orderW (any current
status) to accepted. -/
theorem updateOrderStatus_permissions_witness :
    updateOrderStatus "restaurant_owner" 9 frW "accepted" 5 (some orderW) =
      .ok (applyStatus orderW "accepted" 5) :=
  (updateOrderStatus_permissions "restaurant_owner" 9 frW "accepted" 5 orderW
    ⟨9⟩ rfl).2.2.1 rfl (by decide) rfl

/-- Witness for C3: customer 1 reviews delivered order 10 against an empty
review store; exactly the new review is stored. -/
theorem createReview_guards_witness :
    (createReview 1 10 5 none findOrderW []).1 = .ok rvW ∧
    (createReview 1 10 5 none findOrderW []).2.1 = [rvW] := by
  have h := (createReview_guards 1 10 5 none findOrderW []).2.2.2.2.1
    orderDeliveredW rfl rfl rfl (by simp)
  exact ⟨h.1.trans (by rfl), h.2.trans (by rfl)⟩

/-- Witness for C4: the single-review run stores average 5 and count 1,
matching round(mean * 10) / 10 over all reviews of restaurant 3. -/
theorem createReview_rating_witness :
    ratW.average = (jsRound (specMeanRating 3 [rvW] * 10) : Rat) / 10 ∧
    ratW.count = (reviewsOf 3 [rvW]).length := by
  have h : createReview 1 10 5 none findOrderW [] = (.ok rvW, [rvW], some ratW) := by
    norm_num [createReview, findOrderW, orderDeliveredW, orderW, rvW, ratW, jsRound,
      Prod.ext_iff]
  exact createReview_rating 1 10 5 none findOrderW [] orderDeliveredW rfl rvW [rvW] ratW h

/-- Witness for C5: adding one more of menu item 7 to cartW merges into the
existing line. -/
theorem addToCart_contract_witness :
    addToCart 1 7 1 menuW (some cartW) =
      (.ok (mergeOrAppend cartW 7 1 100), some (mergeOrAppend cartW 7 1 100)) :=
  ((addToCart_contract 1 7 1 menuW (some cartW)).2.2.2 ⟨3, "Dosa", 100, true⟩ cartW
    rfl rfl rfl rfl (by simp [cartValid, cartW]) (by decide)).1

/-- Witness for C7: removing the only line of cartW leaves a restaurant-less
cart that still exists. -/
theorem removeCartItem_contract_witness :
    removeCartItem 1 "7" (some cartW) =
      (.ok { cartW with items := [], restaurant := none },
       some { cartW with items := [], restaurant := none }) := by
  have h := (removeCartItem_contract 1 "7" (some cartW)).2 cartW rfl (by simp [cartValid, cartW])
  rw [h]
  rfl

/-- Witness for C8: agent 2 delivering orderW stamps the delivery time and
marks the payment paid. -/
theorem delivered_frame_witness :
    applyStatus orderW "delivered" 5 =
      { orderW with
        status := "delivered"
        actualDeliveryTime := some 5
        paymentStatus := "paid" } := by
  have h : updateOrderStatus "delivery_agent" 2 frW "delivered" 5 (some orderW) =
      .ok (applyStatus orderW "delivered" 5) := by decide
  exact (delivered_frame "delivery_agent" 2 frW "delivered" 5 orderW
    (applyStatus orderW "delivered" 5) h).1 rfl

/-- Witness for C9: cartW stays valid under an add, and updating to
quantity 0 is rejected with 400. -/
theorem cart_quantity_invariant_witness :
    storedValid (addToCart 1 7 1 menuW (some cartW)).2 ∧
    (updateCartItem 1 7 0 (some cartW)).1 = .err 400 "Quantity must be greater than 0" := by
  constructor
  · exact (cart_quantity_invariant 1 7 "7" 1 menuW (some cartW)
      (by simp [storedValid, cartValid, cartW])).1
  · exact (cart_quantity_invariant 1 7 "7" 0 menuW (some cartW)
      (by simp [storedValid, cartValid, cartW])).2.2.2.1 (by decide)

/-- Witness for C10: caller 1 with role restaurant_owner is the order's
customer yet does not own restaurant 3 (owner 9), so access is denied. -/
theorem getOrder_access_witness :
    getOrderById 1 "restaurant_owner" frW (some orderW) = .err 403 "Access denied" := by
  have h := (getOrder_access 1 "restaurant_owner" frW orderW ⟨9⟩ rfl).1 rfl
  rw [h]
  rfl

end RestaurantApi
